import Mathlib

/-!
# signalgateway: outbound dispatch handler, inbound webhook forwarder, lifecycle

A shallow embedding of `main.go`.  Library calls whose results the gateway only
consumes (the provider, the HTTP request accessors, `mime`, `mime/multipart`,
`io.Copy`, `net/http`) are taken as data carried by the inputs; every call the
gateway makes is recorded as an event, in program order.
-/

namespace SignalGateway

/-! ## Outbound dispatch: `APIResponse` and `SendFunc` -/

/-- Go `strings.HasPrefix(s, p)`. -/
def HasPrefix (s p : String) : Bool :=
  p.toList.isPrefixOf s.toList

/-- The `APIResponse` struct. -/
structure APIResponse where
  Code : Int
  Message : String
  deriving DecidableEq, Repr

/-- An uploaded multipart file handle (`multipart.File`), identified by its content. -/
structure File where
  content : List Nat
  deriving DecidableEq, Repr

/-- Calls that `SendFunc` makes on its collaborators, in program order. -/
inductive Event where
  | SendMessage (contact message : String)
  | SendAttachment (contact message : String) (file : File)
  | FormFile (key : String)
  | Close (file : File)
  | WriteHeader (code : Int)
  | Encode (ar : APIResponse)
  | Printf (msg : String)
  deriving DecidableEq, Repr

/-- The parts of `*http.Request` that the handler reads, as they are after the
initial `r.ParseMultipartForm(0)`, whose result the handler discards. -/
structure Request where
  /-- Result of `r.Header.Get("Content-Type")`. -/
  contentType : String
  /-- Result of `r.FormValue(key)`. -/
  FormValue : String → String
  /-- Result of `r.FormFile(key)`: the file, or the error. -/
  FormFile : String → Except String File

/-- The `smsprovider.Provider` handed to `SendFunc`; `SendAttachment` is present
exactly when the type assertion to `smsprovider.AttachmentProvider` succeeds.
A call returns `none` for a nil error. -/
structure Provider where
  SendMessage : String → String → Option String
  SendAttachment : Option (String → String → File → Option String)

/-- The `http.ResponseWriter`: the error, if any, that encoding a response into
it returns. -/
structure ResponseWriter where
  encodeErr : APIResponse → Option String

/-- Method `APIResponse.Write`: `w.WriteHeader(ar.Code)` and then
`json.NewEncoder(w).Encode(ar)`, whose error is returned. -/
def APIResponse.Write (ar : APIResponse) (w : ResponseWriter) :
    List Event × Option String :=
  ([Event.WriteHeader ar.Code, Event.Encode ar], w.encodeErr ar)

/-- The statement `if err := res.Write(w); err != nil { log.Printf("%s", err) }`. -/
def writeAndLog (res : APIResponse) (w : ResponseWriter) : List Event :=
  match res.Write w with
  | (evs, none) => evs
  | (evs, some err) => evs ++ [Event.Printf err]

/-- The handler returned by `SendFunc(p)`, run on `w` and `r`. -/
def SendFunc (p : Provider) (w : ResponseWriter) (r : Request) : List Event :=
  if r.FormValue "contact" = "" ∨
      (¬ HasPrefix r.contentType "multipart/form-data" ∧ r.FormValue "message" = "") then
    writeAndLog ⟨400, "Missing Required Fields"⟩ w
  else if HasPrefix r.contentType "multipart/form-data" then
    match p.SendAttachment with
    | some sendAttachment =>
      match r.FormFile "attachment" with
      | .error err =>
        [Event.FormFile "attachment", Event.Printf err]
          ++ writeAndLog ⟨500, "Unable to send Attachment"⟩ w
      | .ok file =>
        -- `defer file.Close()` runs when the handler returns
        match sendAttachment (r.FormValue "contact") (r.FormValue "message") file with
        | some err =>
          [Event.FormFile "attachment",
            Event.SendAttachment (r.FormValue "contact") (r.FormValue "message") file,
            Event.Printf err]
            ++ writeAndLog ⟨500, "Unable to send Attachment"⟩ w
            ++ [Event.Close file]
        | none =>
          [Event.FormFile "attachment",
            Event.SendAttachment (r.FormValue "contact") (r.FormValue "message") file]
            ++ writeAndLog ⟨200, "Attachment Sent"⟩ w
            ++ [Event.Close file]
    | none =>
      writeAndLog ⟨403, "Provider doesn't support attachments"⟩ w
  else
    match p.SendMessage (r.FormValue "contact") (r.FormValue "message") with
    | some err =>
      [Event.SendMessage (r.FormValue "contact") (r.FormValue "message"), Event.Printf err]
        ++ writeAndLog ⟨500, "Unable to send Message"⟩ w
    | none =>
      [Event.SendMessage (r.FormValue "contact") (r.FormValue "message")]
        ++ writeAndLog ⟨200, "Message Sent"⟩ w

/-- Responses encoded into the writer, in order: one per call of `APIResponse.Write`. -/
def responses : List Event → List APIResponse
  | [] => []
  | Event.Encode ar :: es => ar :: responses es
  | _ :: es => responses es

/-- Transport statuses set through `WriteHeader`, in order. -/
def statuses : List Event → List Int
  | [] => []
  | Event.WriteHeader c :: es => c :: statuses es
  | _ :: es => statuses es

/-- Calls made on the provider (`SendMessage` and `SendAttachment`), in order. -/
def providerCalls : List Event → List Event
  | [] => []
  | Event.SendMessage c m :: es => Event.SendMessage c m :: providerCalls es
  | Event.SendAttachment c m f :: es => Event.SendAttachment c m f :: providerCalls es
  | _ :: es => providerCalls es

/-- Files closed, in order. -/
def closes : List Event → List File
  | [] => []
  | Event.Close f :: es => f :: closes es
  | _ :: es => closes es

/-- File fields extracted through `r.FormFile`, in order. -/
def extractions : List Event → List String
  | [] => []
  | Event.FormFile k :: es => k :: extractions es
  | _ :: es => extractions es

/-! ## Inbound webhook forwarder: the `Handler` closure of `signal.Signal` -/

/-- Go `strconv.Itoa` on the loop counter, which is never negative. -/
def Itoa (n : Nat) : String :=
  toString n

/-- An `io.Reader`: the bytes it yields, and the error that ends the stream
(`none` for `io.EOF`). -/
structure Reader where
  data : List Nat
  err : Option String
  deriving DecidableEq, Repr

/-- An `smsprovider.Attachment`: its declared MIME type and the pair
`(io.Reader, error)` that `GetReader()` returns; a `none` reader is a nil one. -/
structure Attachment where
  GetMimeType : String
  GetReader : Option Reader × Option String
  deriving DecidableEq, Repr

set_option linter.dupNamespace false in
/-- An `smsprovider.Message` as the forwarder reads it. -/
structure Message where
  Source : String
  Message : String
  Attachments : List Attachment
  deriving DecidableEq, Repr

/-- Results of the library calls of the forwarder; `none` is a nil error. The
multipart writer sits on a local `bytes.Buffer`, whose writes return no error, so
on a real run `CreateFormFile`, `WriteField` and `Close` return nil; the fields are
kept general. -/
structure Lib where
  /-- Result of `mime.ExtensionsByType(typ)`. -/
  ExtensionsByType : String → Except String (List String)
  /-- Error of `writer.CreateFormFile(fieldname, filename)`. -/
  CreateFormFile : String → String → Option String
  /-- Error of `writer.WriteField(fieldname, value)`. -/
  WriteField : String → String → Option String
  /-- Error of `writer.Close()`. -/
  Close : Option String
  /-- Error of `http.NewRequest(method, url, body)`. -/
  NewRequest : String → String → Option String
  /-- Error of `httpclient.Do(req)`. -/
  Do : Option String

/-- One part of a multipart body. -/
inductive Part where
  | file (fieldname filename : String) (content : List Nat)
  | field (fieldname value : String)
  deriving DecidableEq, Repr

/-- Calls made by the forwarder, in program order. -/
inductive FwdEvent where
  | NewWriter
  | ExtensionsByType (typ : String)
  | CreateFormFile (fieldname filename : String)
  | GetReader (index : Nat)
  | Copy (content : List Nat)
  | WriteField (fieldname value : String)
  | CloseWriter
  | NewRequest (method url : String)
  | Do (method url : String) (body : List Part)
  | BodyClose
  | Printf (msg : String)
  deriving DecidableEq, Repr

/-- How a call of the forwarder ends. -/
inductive Outcome where
  | returned
  | panicked (msg : String)
  deriving DecidableEq, Repr

/-- A run of the forwarder: the calls it made and how it ended. -/
structure Run where
  events : List FwdEvent
  outcome : Outcome
  deriving DecidableEq, Repr

/-- The loop `for i, attach := range m.Attachments()` from index `i` on: the calls
made, and either the file parts written or the way the forwarder ended inside the
loop. -/
def forwardAttachments (lib : Lib) :
    Nat → List Attachment → List FwdEvent × Except Outcome (List Part)
  | _, [] => ([], .ok [])
  | i, attach :: rest =>
    match lib.ExtensionsByType attach.GetMimeType with
    | .error err =>
      ([FwdEvent.ExtensionsByType attach.GetMimeType, FwdEvent.Printf err], .error .returned)
    | .ok [] =>
      -- `ext[0]` on an empty slice
      ([FwdEvent.ExtensionsByType attach.GetMimeType],
        .error (.panicked "index out of range [0] with length 0"))
    | .ok (ext0 :: _) =>
      match lib.CreateFormFile "attachments" ("attachments" ++ Itoa (i + 1) ++ "." ++ ext0) with
      | some err =>
        ([FwdEvent.ExtensionsByType attach.GetMimeType,
          FwdEvent.CreateFormFile "attachments" ("attachments" ++ Itoa (i + 1) ++ "." ++ ext0),
          FwdEvent.Printf err], .error .returned)
      | none =>
        -- `reader, _ := attach.GetReader()`: the error is discarded
        match attach.GetReader.1 with
        | none =>
          ([FwdEvent.ExtensionsByType attach.GetMimeType,
            FwdEvent.CreateFormFile "attachments" ("attachments" ++ Itoa (i + 1) ++ "." ++ ext0),
            FwdEvent.GetReader i],
            .error (.panicked "invalid memory address or nil pointer dereference"))
        | some reader =>
          match reader.err with
          | some err =>
            ([FwdEvent.ExtensionsByType attach.GetMimeType,
              FwdEvent.CreateFormFile "attachments"
                ("attachments" ++ Itoa (i + 1) ++ "." ++ ext0),
              FwdEvent.GetReader i, FwdEvent.Copy reader.data, FwdEvent.Printf err],
              .error .returned)
          | none =>
            ([FwdEvent.ExtensionsByType attach.GetMimeType,
              FwdEvent.CreateFormFile "attachments"
                ("attachments" ++ Itoa (i + 1) ++ "." ++ ext0),
              FwdEvent.GetReader i, FwdEvent.Copy reader.data]
                ++ (forwardAttachments lib (i + 1) rest).1,
              match (forwardAttachments lib (i + 1) rest).2 with
              | .error out => .error out
              | .ok parts =>
                .ok (Part.file "attachments" ("attachments" ++ Itoa (i + 1) ++ "." ++ ext0)
                  reader.data :: parts))

/-- The part that `writer.WriteField(fieldname, value)` adds; nothing on an error. -/
def fieldPart (lib : Lib) (fieldname value : String) : List Part :=
  match lib.WriteField fieldname value with
  | none => [Part.field fieldname value]
  | some _ => []

/-- The `Handler` closure, for the value `webhook` of the flag. The body handed to
`http.NewRequest` is kept as the list of parts written so far; the boundary that
`writer.FormDataContentType()` puts in the header is not represented. -/
def Handler (lib : Lib) (webhook : String) (m : Message) : Run :=
  if webhook = "" then
    ⟨[], .returned⟩
  else
    match forwardAttachments lib 0 m.Attachments with
    | (evs, .error out) => ⟨FwdEvent.NewWriter :: evs, out⟩
    | (evs, .ok files) =>
      -- the errors of both `writer.WriteField` calls are discarded
      match lib.Close with
      | some err =>
        ⟨FwdEvent.NewWriter :: evs ++
          [FwdEvent.WriteField "source" m.Source, FwdEvent.WriteField "message" m.Message,
            FwdEvent.CloseWriter, FwdEvent.Printf err], .returned⟩
      | none =>
        match lib.NewRequest "POST" webhook with
        | some err =>
          ⟨FwdEvent.NewWriter :: evs ++
            [FwdEvent.WriteField "source" m.Source, FwdEvent.WriteField "message" m.Message,
              FwdEvent.CloseWriter, FwdEvent.NewRequest "POST" webhook, FwdEvent.Printf err],
            .returned⟩
        | none =>
          match lib.Do with
          | some err =>
            ⟨FwdEvent.NewWriter :: evs ++
              [FwdEvent.WriteField "source" m.Source, FwdEvent.WriteField "message" m.Message,
                FwdEvent.CloseWriter, FwdEvent.NewRequest "POST" webhook,
                FwdEvent.Do "POST" webhook
                  (files ++ fieldPart lib "source" m.Source
                    ++ fieldPart lib "message" m.Message),
                FwdEvent.Printf err], .returned⟩
          | none =>
            -- `defer resp.Body.Close()`
            ⟨FwdEvent.NewWriter :: evs ++
              [FwdEvent.WriteField "source" m.Source, FwdEvent.WriteField "message" m.Message,
                FwdEvent.CloseWriter, FwdEvent.NewRequest "POST" webhook,
                FwdEvent.Do "POST" webhook
                  (files ++ fieldPart lib "source" m.Source
                    ++ fieldPart lib "message" m.Message),
                FwdEvent.BodyClose], .returned⟩

/-- HTTP requests sent by a run, in order: method, URL and multipart body. -/
def posts : List FwdEvent → List (String × String × List Part)
  | [] => []
  | FwdEvent.Do method url body :: es => (method, url, body) :: posts es
  | _ :: es => posts es

/-- Every step of one loop iteration succeeds: the MIME lookup returns no error and
at least one extension, the file part is created, the reader is opened without an
error and copied to its end. -/
def attachmentOk (lib : Lib) (i : Nat) (attach : Attachment) : Bool :=
  match lib.ExtensionsByType attach.GetMimeType with
  | .ok (ext0 :: _) =>
    (lib.CreateFormFile "attachments" ("attachments" ++ Itoa (i + 1) ++ "." ++ ext0)).isNone &&
      (match attach.GetReader with
        | (some reader, none) => reader.err.isNone
        | _ => false)
  | _ => false

/-- Every loop iteration succeeds, the first one having index `i`. -/
def attachmentsOk (lib : Lib) : Nat → List Attachment → Bool
  | _, [] => true
  | i, attach :: rest => attachmentOk lib i attach && attachmentsOk lib (i + 1) rest

/-- Every step before the HTTP send succeeds. -/
def preSendOk (lib : Lib) (webhook : String) (m : Message) : Bool :=
  attachmentsOk lib 0 m.Attachments &&
    (lib.WriteField "source" m.Source).isNone &&
    (lib.WriteField "message" m.Message).isNone &&
    lib.Close.isNone && (lib.NewRequest "POST" webhook).isNone

/-- The first extension registered for the attachment's MIME type. -/
def firstExtension (lib : Lib) (attach : Attachment) : String :=
  match lib.ExtensionsByType attach.GetMimeType with
  | .ok (ext0 :: _) => ext0
  | _ => ""

/-- The full stream of the attachment. -/
def fullStream (attach : Attachment) : List Nat :=
  match attach.GetReader.1 with
  | some reader => reader.data
  | none => []

/-- An extension without the leading dot that `mime.ExtensionsByType` puts on it:
`png` for `.png`. -/
def extensionName (ext : String) : String :=
  match ext.data with
  | '.' :: cs => String.mk cs
  | _ => ext

/-- The filename the specification gives the `i`-th file part,
`attachments{i}.{ext}`: the number, one dot, the extension. -/
def specFileName (i : Nat) (ext : String) : String :=
  "attachments" ++ Itoa i ++ "." ++ extensionName ext

/-- The filename line 49 builds for the `i`-th file part (`i` counted from 1):
`"attachments" + strconv.Itoa(i) + "." + ext[0]`, with `ext[0]` as the lookup
returns it. -/
def sentFileName (i : Nat) (ext0 : String) : String :=
  "attachments" ++ Itoa i ++ "." ++ ext0

/-- A body made of one file part `attachments` per attachment, numbered from `1`
and named by `fileName` from the number and the first registered extension,
holding the full stream, then the field `source`, then the field `message`. -/
def bodyNamedBy (fileName : Nat → String → String) (lib : Lib) (m : Message) : List Part :=
  (m.Attachments.enumFrom 1).map (fun ia =>
      Part.file "attachments" (fileName ia.1 (firstExtension lib ia.2)) (fullStream ia.2))
    ++ [Part.field "source" m.Source, Part.field "message" m.Message]

/-- The body the specification describes: file parts named `attachments1.<ext>`
to `attachmentsN.<ext>`, then `source`, then `message`. -/
def specBody (lib : Lib) (m : Message) : List Part :=
  bodyNamedBy specFileName lib m

/-- One loop iteration has a step whose error the forwarder checks and that
returns an error: the MIME lookup, the creation of the file part, or the copy of
the stream. -/
def attachmentFails (lib : Lib) (i : Nat) (attach : Attachment) : Bool :=
  match lib.ExtensionsByType attach.GetMimeType with
  | .error _ => true
  | .ok [] => false
  | .ok (ext0 :: _) =>
    (lib.CreateFormFile "attachments" ("attachments" ++ Itoa (i + 1) ++ "." ++ ext0)).isSome ||
      (match attach.GetReader.1 with
        | some reader => reader.err.isSome
        | none => false)

/-- Some loop iteration has such a step, the first iteration having index `i`. -/
def attachmentsFail (lib : Lib) : Nat → List Attachment → Bool
  | _, [] => false
  | i, attach :: rest => attachmentFails lib i attach || attachmentsFail lib (i + 1) rest

/-- Some step before the HTTP send whose error the forwarder checks returns an
error: in the loop, on closing the multipart writer, or on building the request. -/
def checkedStepFails (lib : Lib) (webhook : String) (m : Message) : Bool :=
  attachmentsFail lib 0 m.Attachments || lib.Close.isSome ||
    (lib.NewRequest "POST" webhook).isSome

/-! ## Lifecycle coordinator: the goroutines of `main` -/

/-- The value `http.ErrServerClosed`, which `ListenAndServe` returns once
`Shutdown` has been called on the server. -/
def ErrServerClosed : String :=
  "http: Server closed"

/-- Observable actions of the process, in the order they happen. -/
inductive LEvent where
  | SetupCalled
  | SetupReturned (err : Option String)
  | SetVerificationCode (text : String)
  | ListenAndServeCalled
  | ListenAndServeReturned (err : Option String)
  | Interrupt
  | InterruptObserved
  | ServerShutdownCalled (seconds : Nat)
  | ServerShutdownReturned
  | ProviderShutdown
  | Fatal (msg : String)
  | Exit
  deriving DecidableEq, Repr

/-- The main goroutine: in the `if *register` loop, about to start the server and
interrupt goroutines, blocked in `wg.Wait()`, or past it. -/
inductive MainPc where
  | registering
  | spawning
  | waiting
  | returned
  deriving DecidableEq, Repr

/-- The goroutine that runs `signalsms.Setup()`. -/
inductive SetupPc where
  | start
  | inSetup
  | done
  deriving DecidableEq, Repr

/-- The goroutine that runs `srv.ListenAndServe()`. -/
inductive ServePc where
  | notSpawned
  | start
  | serving
  | done
  deriving DecidableEq, Repr

/-- The goroutine that waits for the interrupt: before `ossignal.Notify`, blocked on
`<-c`, inside `srv.Shutdown(ctx)`, between `srv.Shutdown` and `signalsms.Shutdown`,
or finished. -/
inductive WatchPc where
  | notSpawned
  | start
  | waiting
  | draining
  | drained
  | done
  deriving DecidableEq, Repr

/-- The process as a whole: running, ended by `log.Fatal` (`os.Exit(1)`), ended by
an interrupt nobody is notified of, or ended by `main` returning. -/
inductive Proc where
  | running
  | fatal
  | killed
  | exited
  deriving DecidableEq, Repr

/-- State of the process. -/
structure Sys where
  main : MainPc
  setup : SetupPc
  serve : ServePc
  watch : WatchPc
  /-- Counter of the wait group. -/
  wg : Nat
  /-- An interrupt sits in the channel `c` (capacity one). -/
  pending : Bool
  /-- Whether `srv.Shutdown` has been called. -/
  shuttingDown : Bool
  proc : Proc
  trace : List LEvent
  deriving DecidableEq, Repr

/-- What the scheduler and the environment can do next. -/
inductive Action where
  /-- The setup goroutine calls `signalsms.Setup()`. -/
  | callSetup
  /-- `signalsms.Setup()` returns `err`. -/
  | setupReturns (err : Option String)
  /-- One round of the `Enter Code:` loop reads `text` (already trimmed). -/
  | readCode (text : String)
  /-- `main` builds the router and the server and starts both goroutines. -/
  | spawn
  /-- The server goroutine calls `srv.ListenAndServe()`. -/
  | listen
  /-- `srv.ListenAndServe()` returns `err`. -/
  | serveReturns (err : Option String)
  /-- The interrupt goroutine runs `ossignal.Notify(c, os.Interrupt)`. -/
  | notify
  /-- The operating system delivers an interrupt. -/
  | interrupt
  /-- `<-c` receives, and `srv.Shutdown(ctx)` is called with the 5 second context. -/
  | receive
  /-- `srv.Shutdown(ctx)` returns. -/
  | shutdownReturns
  /-- The interrupt goroutine calls `signalsms.Shutdown()` and finishes. -/
  | providerShutdown
  /-- `wg.Wait()` returns and `main` with it. -/
  | waitReturns
  deriving DecidableEq, Repr

/-- The body of the setup goroutine after `Setup` has returned `err`:
`if err != nil { log.Fatal(err) }`, then the deferred `wg.Done()`. -/
def setupTask (s : Sys) (err : Option String) : Sys :=
  match err with
  | some e =>
    { s with proc := .fatal, trace := s.trace ++ [LEvent.SetupReturned err, LEvent.Fatal e] }
  | none =>
    { s with setup := .done, wg := s.wg - 1, trace := s.trace ++ [LEvent.SetupReturned err] }

/-- The body of the server goroutine after `ListenAndServe` has returned `err`:
`if err != nil { log.Fatal(err) }`, then the deferred `wg.Done()`. -/
def serverTask (s : Sys) (err : Option String) : Sys :=
  match err with
  | some e =>
    { s with
      proc := .fatal, trace := s.trace ++ [LEvent.ListenAndServeReturned err, LEvent.Fatal e] }
  | none =>
    { s with
      serve := .done, wg := s.wg - 1, trace := s.trace ++ [LEvent.ListenAndServeReturned err] }

/-- One step of the process; `none` when the action is not enabled. -/
def step (s : Sys) (act : Action) : Option Sys :=
  if s.proc ≠ .running then none
  else
    match act with
    | .callSetup =>
      if s.setup = .start then
        some { s with setup := .inSetup, trace := s.trace ++ [LEvent.SetupCalled] }
      else none
    | .setupReturns err =>
      if s.setup = .inSetup then some (setupTask s err) else none
    | .readCode text =>
      if s.main = .registering then
        if text ≠ "" ∧ text.utf8ByteSize = 7 then
          some { s with
            main := .spawning, trace := s.trace ++ [LEvent.SetVerificationCode text] }
        else some s
      else none
    | .spawn =>
      if s.main = .spawning then
        some { s with main := .waiting, serve := .start, watch := .start }
      else none
    | .listen =>
      if s.serve = .start then
        some { s with serve := .serving, trace := s.trace ++ [LEvent.ListenAndServeCalled] }
      else none
    | .serveReturns err =>
      -- `http.ErrServerClosed` is returned only once `Shutdown` has been called
      if s.serve = .serving ∧ (err = some ErrServerClosed → s.shuttingDown = true) then
        some (serverTask s err)
      else none
    | .notify =>
      if s.watch = .start then some { s with watch := .waiting } else none
    | .interrupt =>
      if s.watch = .notSpawned ∨ s.watch = .start then
        some { s with proc := .killed, trace := s.trace ++ [LEvent.Interrupt] }
      else some { s with pending := true, trace := s.trace ++ [LEvent.Interrupt] }
    | .receive =>
      if s.watch = .waiting ∧ s.pending = true then
        some { s with
          watch := .draining, pending := false, shuttingDown := true,
          trace := s.trace ++ [LEvent.InterruptObserved, LEvent.ServerShutdownCalled 5] }
      else none
    | .shutdownReturns =>
      if s.watch = .draining then
        some { s with watch := .drained, trace := s.trace ++ [LEvent.ServerShutdownReturned] }
      else none
    | .providerShutdown =>
      if s.watch = .drained then
        some { s with
          watch := .done, wg := s.wg - 1, trace := s.trace ++ [LEvent.ProviderShutdown] }
      else none
    | .waitReturns =>
      if s.main = .waiting ∧ s.wg = 0 then
        some { s with main := .returned, proc := .exited, trace := s.trace ++ [LEvent.Exit] }
      else none

/-- The process after `wg.Add(3)` and the start of the setup goroutine; `register`
is the value of the flag. -/
def init (register : Bool) : Sys :=
  { main := if register then .registering else .spawning
    setup := .start
    serve := .notSpawned
    watch := .notSpawned
    wg := 3
    pending := false
    shuttingDown := false
    proc := .running
    trace := [] }

/-- Run a schedule, one action after the other. -/
def run (s : Sys) : List Action → Option Sys
  | [] => some s
  | act :: acts =>
    match step s act with
    | some s' => run s' acts
    | none => none

/-- The events of the shutdown sequence of the interrupt goroutine. -/
def isShutdownEvent : LEvent → Bool
  | .InterruptObserved => true
  | .ServerShutdownCalled _ => true
  | .ServerShutdownReturned => true
  | .ProviderShutdown => true
  | _ => false

/-- The shutdown events the interrupt goroutine has produced at each of its
program points. -/
def shutdownProgress : WatchPc → List LEvent
  | .notSpawned => []
  | .start => []
  | .waiting => []
  | .draining => [LEvent.InterruptObserved, LEvent.ServerShutdownCalled 5]
  | .drained =>
    [LEvent.InterruptObserved, LEvent.ServerShutdownCalled 5, LEvent.ServerShutdownReturned]
  | .done =>
    [LEvent.InterruptObserved, LEvent.ServerShutdownCalled 5, LEvent.ServerShutdownReturned,
      LEvent.ProviderShutdown]

/-- `Setup` has returned somewhere in the events. -/
def setupReturned (tr : List LEvent) : Bool :=
  tr.any (fun e => match e with
    | .SetupReturned _ => true
    | _ => false)

/-- A schedule in which the interrupt arrives while `Setup` is still running. -/
def interruptDuringSetup : List Action :=
  [.callSetup, .spawn, .listen, .notify, .interrupt, .receive, .shutdownReturns,
    .providerShutdown]

/-- A schedule in which `Setup` succeeds, the server runs, an interrupt arrives and
`ListenAndServe` returns `http.ErrServerClosed` as soon as `Shutdown` is called. -/
def interruptThenServerClosed : List Action :=
  [.callSetup, .setupReturns none, .spawn, .listen, .notify, .interrupt, .receive,
    .serveReturns (some ErrServerClosed)]

/-- A schedule of a complete shutdown in which `ListenAndServe` returns no error. -/
def orderlyShutdown : List Action :=
  [.callSetup, .setupReturns none, .spawn, .listen, .notify, .interrupt, .receive,
    .shutdownReturns, .providerShutdown]

/-- Invariant of the process: the shutdown events in the trace are those of the
program point of the interrupt goroutine, and that goroutine does not exist before
`main` starts it. -/
def Inv (s : Sys) : Prop :=
  s.trace.filter isShutdownEvent = shutdownProgress s.watch ∧
    ((s.main = .registering ∨ s.main = .spawning) → s.watch = .notSpawned)

/-- The state at the end of `orderlyShutdown`. -/
def orderlyShutdownEnd : Sys :=
  { main := .waiting
    setup := .done
    serve := .serving
    watch := .done
    wg := 1
    pending := false
    shuttingDown := true
    proc := .running
    trace :=
      [LEvent.SetupCalled, LEvent.SetupReturned none, LEvent.ListenAndServeCalled,
        LEvent.Interrupt, LEvent.InterruptObserved, LEvent.ServerShutdownCalled 5,
        LEvent.ServerShutdownReturned, LEvent.ProviderShutdown] }

/-! ### Sample collaborators used to instantiate the results below -/

/-- A provider without the attachment capability whose `SendMessage` succeeds. -/
def plainProvider : Provider :=
  { SendMessage := fun _ _ => none, SendAttachment := none }

/-- A provider with the attachment capability; both sends succeed. -/
def attachProvider : Provider :=
  { SendMessage := fun _ _ => none, SendAttachment := some (fun _ _ _ => none) }

/-- A response writer on which encoding succeeds. -/
def okWriter : ResponseWriter :=
  { encodeErr := fun _ => none }

/-- A URL-encoded form post carrying `contact` and `message`. -/
def reqPlain : Request :=
  { contentType := "application/x-www-form-urlencoded"
    FormValue := fun k =>
      if k = "contact" then "+15550100" else if k = "message" then "hello" else ""
    FormFile := fun _ => .error "request Content-Type isn't multipart/form-data" }

/-- A multipart post carrying `contact` and the file field `attachment`, no `message`. -/
def reqMultipart : Request :=
  { contentType := "multipart/form-data; boundary=xyz"
    FormValue := fun k => if k = "contact" then "+15550100" else ""
    FormFile := fun k =>
      if k = "attachment" then .ok ⟨[137, 80, 78, 71]⟩ else .error "http: no such file" }

/-- A multipart post whose `contact` is empty. -/
def reqMultipartNoContact : Request :=
  { contentType := "multipart/form-data; boundary=xyz"
    FormValue := fun k => if k = "message" then "hello" else ""
    FormFile := fun k =>
      if k = "attachment" then .ok ⟨[137, 80, 78, 71]⟩ else .error "http: no such file" }

/-- The library as Go behaves on a healthy system: `mime.ExtensionsByType` knows
two image types of Go's built-in table (extensions carry their leading dot),
returns an empty list and no error for a type without registered extensions, and
an error for an empty type; every other call succeeds. -/
def goLib : Lib :=
  { ExtensionsByType := fun typ =>
      if typ = "image/png" then .ok [".png"]
      else if typ = "image/gif" then .ok [".gif"]
      else if typ = "" then .error "mime: no media type"
      else .ok []
    CreateFormFile := fun _ _ => none
    WriteField := fun _ _ => none
    Close := none
    NewRequest := fun _ _ => none
    Do := none }

/-- An inbound message with a PNG and a GIF attachment. -/
def msgTwoImages : Message :=
  { Source := "+15550123"
    Message := "see pictures"
    Attachments :=
      [ { GetMimeType := "image/png", GetReader := (some ⟨[137, 80, 78, 71], none⟩, none) },
        { GetMimeType := "image/gif", GetReader := (some ⟨[71, 73, 70, 56], none⟩, none) } ] }

/-- An inbound message whose attachment cannot be opened: `GetReader` returns an
error next to an empty, non-nil reader. -/
def msgOpenFails : Message :=
  { Source := "+15550123"
    Message := "see picture"
    Attachments :=
      [ { GetMimeType := "image/png",
          GetReader := (some ⟨[], none⟩, some "open attachment: no such file") } ] }

/-- An inbound message whose attachment declares a MIME type without registered
extensions. -/
def msgUnknownType : Message :=
  { Source := "+15550123"
    Message := "see file"
    Attachments :=
      [ { GetMimeType := "application/x-unregistered",
          GetReader := (some ⟨[1, 2, 3], none⟩, none) } ] }

/-- An inbound message whose attachment cannot be opened: `GetReader` returns a nil
reader and an error. -/
def msgNilReader : Message :=
  { Source := "+15550123"
    Message := "see picture"
    Attachments :=
      [ { GetMimeType := "image/png", GetReader := (none, some "open attachment: EOF") } ] }

/-! ### Projections of a response write -/

theorem responses_writeAndLog (res : APIResponse) (w : ResponseWriter) :
    responses (writeAndLog res w) = [res] := by
  cases h : w.encodeErr res <;> simp [writeAndLog, APIResponse.Write, h, responses]

theorem statuses_writeAndLog (res : APIResponse) (w : ResponseWriter) :
    statuses (writeAndLog res w) = [res.Code] := by
  cases h : w.encodeErr res <;> simp [writeAndLog, APIResponse.Write, h, statuses]

theorem providerCalls_writeAndLog (res : APIResponse) (w : ResponseWriter) :
    providerCalls (writeAndLog res w) = [] := by
  cases h : w.encodeErr res <;> simp [writeAndLog, APIResponse.Write, h, providerCalls]

theorem closes_writeAndLog (res : APIResponse) (w : ResponseWriter) :
    closes (writeAndLog res w) = [] := by
  cases h : w.encodeErr res <;> simp [writeAndLog, APIResponse.Write, h, closes]

theorem extractions_writeAndLog (res : APIResponse) (w : ResponseWriter) :
    extractions (writeAndLog res w) = [] := by
  cases h : w.encodeErr res <;> simp [writeAndLog, APIResponse.Write, h, extractions]

theorem responses_append (a b : List Event) :
    responses (a ++ b) = responses a ++ responses b := by
  induction a with
  | nil => rfl
  | cons e es ih => cases e <;> simp [responses, ih]

theorem statuses_append (a b : List Event) :
    statuses (a ++ b) = statuses a ++ statuses b := by
  induction a with
  | nil => rfl
  | cons e es ih => cases e <;> simp [statuses, ih]

theorem providerCalls_append (a b : List Event) :
    providerCalls (a ++ b) = providerCalls a ++ providerCalls b := by
  induction a with
  | nil => rfl
  | cons e es ih => cases e <;> simp [providerCalls, ih]

theorem closes_append (a b : List Event) :
    closes (a ++ b) = closes a ++ closes b := by
  induction a with
  | nil => rfl
  | cons e es ih => cases e <;> simp [closes, ih]

theorem extractions_append (a b : List Event) :
    extractions (a ++ b) = extractions a ++ extractions b := by
  induction a with
  | nil => rfl
  | cons e es ih => cases e <;> simp [extractions, ih]

/-! ### Validation failures -/

/-- C1: a request whose `contact` is empty, or whose Content-Type does not start
with "multipart/form-data" and whose `message` is empty, is answered with exactly
`APIResponse{400, "Missing Required Fields"}` (transport status 400), no provider
method is called and no file is extracted, whatever the provider's capabilities. -/
theorem SendFunc_missing_required_fields (p : Provider) (w : ResponseWriter) (r : Request)
    (h : r.FormValue "contact" = "" ∨
      (HasPrefix r.contentType "multipart/form-data" = false ∧ r.FormValue "message" = "")) :
    responses (SendFunc p w r) = [⟨400, "Missing Required Fields"⟩] ∧
      statuses (SendFunc p w r) = [400] ∧
      providerCalls (SendFunc p w r) = [] ∧
      extractions (SendFunc p w r) = [] := by
  have hc : r.FormValue "contact" = "" ∨
      (¬ HasPrefix r.contentType "multipart/form-data" = true ∧ r.FormValue "message" = "") := by
    rcases h with h | ⟨h1, h2⟩
    · exact Or.inl h
    · exact Or.inr ⟨by simp [h1], h2⟩
  unfold SendFunc
  rw [if_pos hc]
  exact ⟨responses_writeAndLog _ _, statuses_writeAndLog _ _, providerCalls_writeAndLog _ _,
    extractions_writeAndLog _ _⟩

/-- Instance of C1: a multipart request with empty `contact` against a provider
lacking attachment support is answered 400, not 403. -/
theorem SendFunc_missing_required_fields_witness :
    (reqMultipartNoContact.FormValue "contact" = "" ∨
      (HasPrefix reqMultipartNoContact.contentType "multipart/form-data" = false ∧
        reqMultipartNoContact.FormValue "message" = "")) ∧
    (responses (SendFunc plainProvider okWriter reqMultipartNoContact)
        = [⟨400, "Missing Required Fields"⟩] ∧
      statuses (SendFunc plainProvider okWriter reqMultipartNoContact) = [400] ∧
      providerCalls (SendFunc plainProvider okWriter reqMultipartNoContact) = [] ∧
      extractions (SendFunc plainProvider okWriter reqMultipartNoContact) = []) :=
  ⟨Or.inl (by decide),
    SendFunc_missing_required_fields plainProvider okWriter reqMultipartNoContact
      (Or.inl (by decide))⟩

/-! ### Plain form posts -/

/-- C2: on a non-multipart request with non-empty `contact` and `message` the
handler calls `SendMessage` exactly once, with exactly (contact, message), and no
other provider method; a nil error gives exactly `{200, "Message Sent"}` and an
error gives exactly `{500, "Unable to send Message"}`. -/
theorem SendFunc_plain_form (p : Provider) (w : ResponseWriter) (r : Request)
    (hct : HasPrefix r.contentType "multipart/form-data" = false)
    (hc : r.FormValue "contact" ≠ "") (hm : r.FormValue "message" ≠ "") :
    providerCalls (SendFunc p w r)
        = [Event.SendMessage (r.FormValue "contact") (r.FormValue "message")] ∧
      (p.SendMessage (r.FormValue "contact") (r.FormValue "message") = none →
        responses (SendFunc p w r) = [⟨200, "Message Sent"⟩]) ∧
      (∀ err, p.SendMessage (r.FormValue "contact") (r.FormValue "message") = some err →
        responses (SendFunc p w r) = [⟨500, "Unable to send Message"⟩]) := by
  have hv : ¬ (r.FormValue "contact" = "" ∨
      (¬ HasPrefix r.contentType "multipart/form-data" = true ∧ r.FormValue "message" = "")) := by
    rintro (h | ⟨_, h⟩)
    · exact hc h
    · exact hm h
  have hnm : ¬ HasPrefix r.contentType "multipart/form-data" = true := by simp [hct]
  unfold SendFunc
  rw [if_neg hv, if_neg hnm]
  cases hs : p.SendMessage (r.FormValue "contact") (r.FormValue "message") with
  | none =>
    simp [providerCalls_append, responses_append, providerCalls, responses,
      providerCalls_writeAndLog, responses_writeAndLog]
  | some err =>
    simp [providerCalls_append, responses_append, providerCalls, responses,
      providerCalls_writeAndLog, responses_writeAndLog]

/-- Instance of C2 on a URL-encoded post. -/
theorem SendFunc_plain_form_witness :
    (HasPrefix reqPlain.contentType "multipart/form-data" = false ∧
      reqPlain.FormValue "contact" ≠ "" ∧ reqPlain.FormValue "message" ≠ "") ∧
    (providerCalls (SendFunc plainProvider okWriter reqPlain)
        = [Event.SendMessage (reqPlain.FormValue "contact") (reqPlain.FormValue "message")] ∧
      (plainProvider.SendMessage (reqPlain.FormValue "contact") (reqPlain.FormValue "message")
          = none →
        responses (SendFunc plainProvider okWriter reqPlain) = [⟨200, "Message Sent"⟩]) ∧
      (∀ err,
        plainProvider.SendMessage (reqPlain.FormValue "contact") (reqPlain.FormValue "message")
          = some err →
        responses (SendFunc plainProvider okWriter reqPlain)
          = [⟨500, "Unable to send Message"⟩])) :=
  ⟨⟨by decide, by decide, by decide⟩,
    SendFunc_plain_form plainProvider okWriter reqPlain (by decide) (by decide) (by decide)⟩

/-! ### Multipart posts -/

/-- C3: on a multipart request with non-empty `contact`, a provider without the
attachment capability is answered exactly `{403, "Provider doesn't support
attachments"}`; no provider method is called and `r.FormFile` is not called,
whatever `message` holds. -/
theorem SendFunc_attachment_unsupported (p : Provider) (w : ResponseWriter) (r : Request)
    (hct : HasPrefix r.contentType "multipart/form-data" = true)
    (hc : r.FormValue "contact" ≠ "") (hp : p.SendAttachment = none) :
    responses (SendFunc p w r) = [⟨403, "Provider doesn't support attachments"⟩] ∧
      statuses (SendFunc p w r) = [403] ∧
      providerCalls (SendFunc p w r) = [] ∧
      extractions (SendFunc p w r) = [] := by
  have hv : ¬ (r.FormValue "contact" = "" ∨
      (¬ HasPrefix r.contentType "multipart/form-data" = true ∧ r.FormValue "message" = "")) := by
    rintro (h | ⟨h, _⟩)
    · exact hc h
    · exact h hct
  unfold SendFunc
  rw [if_neg hv, if_pos hct, hp]
  exact ⟨responses_writeAndLog _ _, statuses_writeAndLog _ _, providerCalls_writeAndLog _ _,
    extractions_writeAndLog _ _⟩

/-- Instance of C3: a multipart post without `message`. -/
theorem SendFunc_attachment_unsupported_witness :
    (HasPrefix reqMultipart.contentType "multipart/form-data" = true ∧
      reqMultipart.FormValue "contact" ≠ "" ∧ plainProvider.SendAttachment = none) ∧
    (responses (SendFunc plainProvider okWriter reqMultipart)
        = [⟨403, "Provider doesn't support attachments"⟩] ∧
      statuses (SendFunc plainProvider okWriter reqMultipart) = [403] ∧
      providerCalls (SendFunc plainProvider okWriter reqMultipart) = [] ∧
      extractions (SendFunc plainProvider okWriter reqMultipart) = []) :=
  ⟨⟨by decide, by decide, rfl⟩,
    SendFunc_attachment_unsupported plainProvider okWriter reqMultipart
      (by decide) (by decide) rfl⟩

/-- C4: on a multipart request with non-empty `contact`, against a provider with
the attachment capability: when `r.FormFile("attachment")` fails the response is
`{500, "Unable to send Attachment"}`, no provider method is called and nothing is
closed; otherwise `SendAttachment` is the only provider call, made once with
exactly (contact, message, file), the response is `{200, "Attachment Sent"}` on a
nil error and `{500, "Unable to send Attachment"}` on an error, and in both cases
the file is closed exactly once, as the last action, after that call. -/
theorem SendFunc_attachment (p : Provider) (w : ResponseWriter) (r : Request)
    (sendAttachment : String → String → File → Option String)
    (hct : HasPrefix r.contentType "multipart/form-data" = true)
    (hc : r.FormValue "contact" ≠ "") (hp : p.SendAttachment = some sendAttachment) :
    (∀ err, r.FormFile "attachment" = .error err →
      responses (SendFunc p w r) = [⟨500, "Unable to send Attachment"⟩] ∧
        providerCalls (SendFunc p w r) = [] ∧ closes (SendFunc p w r) = []) ∧
    (∀ file, r.FormFile "attachment" = .ok file →
      providerCalls (SendFunc p w r)
          = [Event.SendAttachment (r.FormValue "contact") (r.FormValue "message") file] ∧
        (sendAttachment (r.FormValue "contact") (r.FormValue "message") file = none →
          responses (SendFunc p w r) = [⟨200, "Attachment Sent"⟩]) ∧
        (∀ err, sendAttachment (r.FormValue "contact") (r.FormValue "message") file = some err →
          responses (SendFunc p w r) = [⟨500, "Unable to send Attachment"⟩]) ∧
        closes (SendFunc p w r) = [file] ∧
        ∃ pre mid, closes pre = [] ∧ closes mid = [] ∧
          SendFunc p w r = pre ++
            Event.SendAttachment (r.FormValue "contact") (r.FormValue "message") file ::
              mid ++ [Event.Close file]) := by
  have hv : ¬ (r.FormValue "contact" = "" ∨
      (¬ HasPrefix r.contentType "multipart/form-data" = true ∧ r.FormValue "message" = "")) := by
    rintro (h | ⟨h, _⟩)
    · exact hc h
    · exact h hct
  unfold SendFunc
  rw [if_neg hv, if_pos hct, hp]
  constructor
  · intro err hf
    simp [hf, providerCalls_append, responses_append, closes_append, providerCalls, responses,
      closes, providerCalls_writeAndLog, responses_writeAndLog, closes_writeAndLog]
  · intro file hf
    cases hs : sendAttachment (r.FormValue "contact") (r.FormValue "message") file with
    | none =>
      refine ⟨?_, ?_, ?_, ?_, [Event.FormFile "attachment"],
        writeAndLog ⟨200, "Attachment Sent"⟩ w, rfl, closes_writeAndLog _ _, ?_⟩ <;>
      simp [hf, hs, providerCalls_append, responses_append, closes_append, providerCalls,
        responses, closes, providerCalls_writeAndLog, responses_writeAndLog, closes_writeAndLog]
    | some e =>
      refine ⟨?_, ?_, ?_, ?_, [Event.FormFile "attachment"],
        Event.Printf e :: writeAndLog ⟨500, "Unable to send Attachment"⟩ w, rfl,
        by simp [closes, closes_writeAndLog], ?_⟩ <;>
      simp [hf, hs, providerCalls_append, responses_append, closes_append, providerCalls,
        responses, closes, providerCalls_writeAndLog, responses_writeAndLog, closes_writeAndLog]

/-- Instance of C4: a multipart post with a file and no `message`, sent through a
capable provider, is answered 200 and its file is closed once. -/
theorem SendFunc_attachment_witness :
    (HasPrefix reqMultipart.contentType "multipart/form-data" = true ∧
      reqMultipart.FormValue "contact" ≠ "" ∧
      attachProvider.SendAttachment = some (fun _ _ _ => none) ∧
      reqMultipart.FormFile "attachment" = .ok ⟨[137, 80, 78, 71]⟩) ∧
    (providerCalls (SendFunc attachProvider okWriter reqMultipart)
        = [Event.SendAttachment "+15550100" "" ⟨[137, 80, 78, 71]⟩] ∧
      responses (SendFunc attachProvider okWriter reqMultipart) = [⟨200, "Attachment Sent"⟩] ∧
      closes (SendFunc attachProvider okWriter reqMultipart) = [⟨[137, 80, 78, 71]⟩]) :=
  have h := (SendFunc_attachment attachProvider okWriter reqMultipart (fun _ _ _ => none)
    (by decide) (by decide) rfl).2 ⟨[137, 80, 78, 71]⟩ rfl
  ⟨⟨by decide, by decide, rfl, rfl⟩, h.1, h.2.1 rfl, h.2.2.2.1⟩

/-! ### Write-once responses -/

theorem writeAndLog_eq (res : APIResponse) (w : ResponseWriter) :
    ∃ tl, writeAndLog res w = Event.WriteHeader res.Code :: Event.Encode res :: tl := by
  cases h : w.encodeErr res with
  | none => exact ⟨[], by simp [writeAndLog, APIResponse.Write, h]⟩
  | some e => exact ⟨[Event.Printf e], by simp [writeAndLog, APIResponse.Write, h]⟩

/-- C5: for every provider, writer (also one whose encoding fails) and request,
one run of the handler makes exactly one call of `APIResponse.Write`: exactly one
response is encoded, exactly one transport status is set, by the `WriteHeader`
immediately before that encoding, it equals the response's `Code`, and that code
is one of 200, 400, 403, 500. -/
theorem SendFunc_writes_exactly_once (p : Provider) (w : ResponseWriter) (r : Request) :
    ∃ ar : APIResponse,
      responses (SendFunc p w r) = [ar] ∧
      statuses (SendFunc p w r) = [ar.Code] ∧
      (∃ pre post, SendFunc p w r
        = pre ++ Event.WriteHeader ar.Code :: Event.Encode ar :: post) ∧
      (ar.Code = 200 ∨ ar.Code = 400 ∨ ar.Code = 403 ∨ ar.Code = 500) := by
  unfold SendFunc
  split
  · obtain ⟨tl, htl⟩ := writeAndLog_eq ⟨400, "Missing Required Fields"⟩ w
    exact ⟨⟨400, "Missing Required Fields"⟩, responses_writeAndLog _ _,
      statuses_writeAndLog _ _, ⟨[], tl, by simpa using htl⟩, by simp⟩
  · split
    · split
      · split
        · obtain ⟨tl, htl⟩ := writeAndLog_eq ⟨500, "Unable to send Attachment"⟩ w
          refine ⟨⟨500, "Unable to send Attachment"⟩, ?_, ?_, ⟨_, tl, by rw [htl]⟩, by simp⟩ <;>
          simp [responses_append, statuses_append, responses, statuses,
            responses_writeAndLog, statuses_writeAndLog]
        · split
          · obtain ⟨tl, htl⟩ := writeAndLog_eq ⟨500, "Unable to send Attachment"⟩ w
            refine ⟨⟨500, "Unable to send Attachment"⟩, ?_, ?_,
              ⟨_, tl ++ [Event.Close _], by rw [htl, List.append_assoc]; rfl⟩, by simp⟩ <;>
            simp [responses_append, statuses_append, responses, statuses,
              responses_writeAndLog, statuses_writeAndLog]
          · obtain ⟨tl, htl⟩ := writeAndLog_eq ⟨200, "Attachment Sent"⟩ w
            refine ⟨⟨200, "Attachment Sent"⟩, ?_, ?_,
              ⟨_, tl ++ [Event.Close _], by rw [htl, List.append_assoc]; rfl⟩, by simp⟩ <;>
            simp [responses_append, statuses_append, responses, statuses,
              responses_writeAndLog, statuses_writeAndLog]
      · obtain ⟨tl, htl⟩ := writeAndLog_eq ⟨403, "Provider doesn't support attachments"⟩ w
        exact ⟨⟨403, "Provider doesn't support attachments"⟩, responses_writeAndLog _ _,
          statuses_writeAndLog _ _, ⟨[], tl, by simpa using htl⟩, by simp⟩
    · split
      · obtain ⟨tl, htl⟩ := writeAndLog_eq ⟨500, "Unable to send Message"⟩ w
        refine ⟨⟨500, "Unable to send Message"⟩, ?_, ?_, ⟨_, tl, by rw [htl]⟩, by simp⟩ <;>
        simp [responses_append, statuses_append, responses, statuses,
          responses_writeAndLog, statuses_writeAndLog]
      · obtain ⟨tl, htl⟩ := writeAndLog_eq ⟨200, "Message Sent"⟩ w
        refine ⟨⟨200, "Message Sent"⟩, ?_, ?_, ⟨_, tl, by rw [htl]⟩, by simp⟩ <;>
        simp [responses_append, statuses_append, responses, statuses,
          responses_writeAndLog, statuses_writeAndLog]

/-! ## The forwarder -/

theorem posts_append (a b : List FwdEvent) : posts (a ++ b) = posts a ++ posts b := by
  induction a with
  | nil => rfl
  | cons e es ih => cases e <;> simp [posts, ih]

/-- The attachment loop sends nothing. -/
theorem posts_forwardAttachments (lib : Lib) (as : List Attachment) :
    ∀ i, posts (forwardAttachments lib i as).1 = [] := by
  induction as with
  | nil => intro i; rfl
  | cons a rest ih =>
    intro i
    unfold forwardAttachments
    split
    · rfl
    · rfl
    · split
      · rfl
      · split
        · rfl
        · split
          · rfl
          · simp [posts_append, posts, ih (i + 1)]

/-- When every iteration succeeds the loop writes the file parts of the
specification, numbered from `i + 1`. -/
theorem forwardAttachments_ok (lib : Lib) (as : List Attachment) :
    ∀ i, attachmentsOk lib i as = true →
      (forwardAttachments lib i as).2 = .ok ((as.enumFrom (i + 1)).map (fun ia =>
        Part.file "attachments"
          (sentFileName ia.1 (firstExtension lib ia.2)) (fullStream ia.2))) := by
  induction as with
  | nil => intro i _; rfl
  | cons a rest ih =>
    intro i h
    simp only [attachmentsOk, Bool.and_eq_true] at h
    obtain ⟨ha, hrest⟩ := h
    unfold attachmentOk at ha
    cases hl : lib.ExtensionsByType a.GetMimeType with
    | error e => simp [hl] at ha
    | ok exts =>
      cases exts with
      | nil => simp [hl] at ha
      | cons ext0 tl =>
        simp only [hl, Bool.and_eq_true, Option.isNone_iff_eq_none] at ha
        obtain ⟨hcf, hr⟩ := ha
        rcases hg : a.GetReader with ⟨rd, e⟩
        rw [hg] at hr
        cases rd with
        | none => simp at hr
        | some reader =>
          cases e with
          | some e => simp at hr
          | none =>
            simp only [Option.isNone_iff_eq_none] at hr
            simp [forwardAttachments, hl, hcf, hg, hr, ih (i + 1) hrest, List.enumFrom,
              firstExtension, fullStream, sentFileName]

/-- What the forwarder sends. With an empty webhook URL it makes no call at all (no
multipart writer, no HTTP request). With a non-empty URL, when every step before
the send succeeds, exactly one request is sent, a POST to the webhook URL, and its
body is: for the attachments in order, numbered from 1, a file part `attachments`
named as line 49 names it and holding the attachment's full stream, then the field
`source`, then the field `message`. -/
theorem Handler_sends (lib : Lib) (webhook : String) (m : Message) :
    (webhook = "" → Handler lib webhook m = ⟨[], .returned⟩) ∧
    (webhook ≠ "" → preSendOk lib webhook m = true →
      posts (Handler lib webhook m).events
          = [("POST", webhook, bodyNamedBy sentFileName lib m)] ∧
        (Handler lib webhook m).outcome = .returned) := by
  constructor
  · intro hw
    simp [Handler, hw]
  · intro hw hok
    simp only [preSendOk, Bool.and_eq_true, Option.isNone_iff_eq_none] at hok
    obtain ⟨⟨⟨⟨hat, hws⟩, hwm⟩, hcl⟩, hnr⟩ := hok
    have hfiles := forwardAttachments_ok lib m.Attachments 0 hat
    have hposts := posts_forwardAttachments lib m.Attachments 0
    unfold Handler
    rw [if_neg hw]
    rcases hfa : forwardAttachments lib 0 m.Attachments with ⟨evs, res⟩
    rw [hfa] at hfiles hposts
    simp only at hfiles hposts
    subst hfiles
    cases hdo : lib.Do <;>
      simp [hcl, hnr, hdo, posts, posts_append, hposts, fieldPart, hws, hwm, bodyNamedBy]

/-- For an extension that carries its leading dot, as every extension returned by
`mime.ExtensionsByType` does, the name line 49 builds is one character longer than
the name of the specification: it has two dots. -/
theorem sentFileName_length (i : Nat) (ext : String) (cs : List Char)
    (h : ext.data = '.' :: cs) :
    (sentFileName i ext).length = (specFileName i ext).length + 1 := by
  have he : ext.length = cs.length + 1 := by
    show ext.data.length = cs.length + 1
    rw [h]
    rfl
  have hn : (extensionName ext).length = cs.length := by
    simp [extensionName, h, String.length]
  simp only [sentFileName, specFileName, String.length_append, he, hn]
  omega

/-- C6 fails on the code in the filenames: for a message with a PNG and a GIF
attachment the one POST carries two file parts `attachments`, then `source`, then
`message`, as the claim says, but the parts are named `attachments1..png` and
`attachments2..gif`, where the claim's `attachments{i}.{ext}` names them
`attachments1.png` and `attachments2.gif`: line 49 puts a dot before an extension
that already starts with one. -/
theorem Handler_file_names_double_dot :
    posts (Handler goLib "https://example.org/hook" msgTwoImages).events
        = [("POST", "https://example.org/hook",
            [Part.file "attachments" "attachments1..png" [137, 80, 78, 71],
              Part.file "attachments" "attachments2..gif" [71, 73, 70, 56],
              Part.field "source" "+15550123", Part.field "message" "see pictures"])] ∧
      specBody goLib msgTwoImages
        = [Part.file "attachments" "attachments1.png" [137, 80, 78, 71],
            Part.file "attachments" "attachments2.gif" [71, 73, 70, 56],
            Part.field "source" "+15550123", Part.field "message" "see pictures"] ∧
      posts (Handler goLib "https://example.org/hook" msgTwoImages).events
        ≠ [("POST", "https://example.org/hook", specBody goLib msgTwoImages)] := by
  decide

/-- A loop with a failing checked step does not run to its end. -/
theorem forwardAttachments_fail (lib : Lib) (as : List Attachment) :
    ∀ i, attachmentsFail lib i as = true →
      ∃ out, (forwardAttachments lib i as).2 = .error out := by
  induction as with
  | nil => intro i h; simp [attachmentsFail] at h
  | cons a rest ih =>
    intro i h
    simp only [attachmentsFail, Bool.or_eq_true] at h
    unfold forwardAttachments
    split
    · exact ⟨_, rfl⟩
    · exact ⟨_, rfl⟩
    · rename_i ext0 tl hl
      split
      · exact ⟨_, rfl⟩
      · rename_i hcf
        split
        · exact ⟨_, rfl⟩
        · rename_i reader hg
          split
          · exact ⟨_, rfl⟩
          · rename_i hr
            have hrest : attachmentsFail lib (i + 1) rest = true := by
              rcases h with h | h
              · simp [attachmentFails, hl, hcf, hg, hr] at h
              · exact h
            obtain ⟨out, hout⟩ := ih (i + 1) hrest
            exact ⟨out, by simp [hout]⟩

/-- A loop that makes the forwarder return ends by logging an error. -/
theorem forwardAttachments_returned (lib : Lib) (as : List Attachment) :
    ∀ i, (forwardAttachments lib i as).2 = .error .returned →
      ∃ pre err, (forwardAttachments lib i as).1 = pre ++ [FwdEvent.Printf err] := by
  induction as with
  | nil => intro i h; simp [forwardAttachments] at h
  | cons a rest ih =>
    intro i
    unfold forwardAttachments
    split
    · intro _; exact ⟨[_], _, rfl⟩
    · intro h; simp at h
    · split
      · intro _; exact ⟨[_, _], _, rfl⟩
      · split
        · intro h; simp at h
        · split
          · intro _; exact ⟨[_, _, _, _], _, rfl⟩
          · intro h
            have hrest : (forwardAttachments lib (i + 1) rest).2 = .error .returned := by
              revert h
              cases (forwardAttachments lib (i + 1) rest).2 <;> simp
            obtain ⟨pre, err, hpre⟩ := ih (i + 1) hrest
            simp only [hpre]
            exact ⟨_, err, (List.append_assoc _ _ _).symm⟩

/-- The steps whose error the forwarder checks: with a non-empty webhook URL, when
one of them returns an error before the send (MIME lookup, file part creation or
stream copy of some attachment, closing the multipart writer, building the
request), no request is sent for that message, and a forwarder that returns ends
by logging an error. -/
theorem Handler_checked_failure_no_post (lib : Lib) (webhook : String) (m : Message)
    (hw : webhook ≠ "") (hf : checkedStepFails lib webhook m = true) :
    posts (Handler lib webhook m).events = [] ∧
      ((Handler lib webhook m).outcome = .returned →
        ∃ pre err, (Handler lib webhook m).events = pre ++ [FwdEvent.Printf err]) := by
  have hposts := posts_forwardAttachments lib m.Attachments 0
  have hfail := forwardAttachments_fail lib m.Attachments 0
  have hret := forwardAttachments_returned lib m.Attachments 0
  unfold Handler
  rw [if_neg hw]
  rcases hfa : forwardAttachments lib 0 m.Attachments with ⟨evs, res⟩
  rw [hfa] at hposts hfail hret
  simp only at hposts hfail hret
  cases res with
  | error out =>
    refine ⟨by simp [posts, hposts], ?_⟩
    intro hout
    simp only at hout
    subst hout
    obtain ⟨pre, err, hpre⟩ := hret rfl
    exact ⟨FwdEvent.NewWriter :: pre, err, by simp [hpre]⟩
  | ok files =>
    have hnl : attachmentsFail lib 0 m.Attachments = false := by
      cases hb : attachmentsFail lib 0 m.Attachments with
      | false => rfl
      | true => obtain ⟨out, hout⟩ := hfail hb; simp at hout
    simp only [checkedStepFails, hnl, Bool.false_or, Bool.or_eq_true] at hf
    cases hcl : lib.Close with
    | some err =>
      exact ⟨by simp [posts, posts_append, hposts], fun _ =>
        ⟨FwdEvent.NewWriter :: evs ++
          [FwdEvent.WriteField "source" m.Source, FwdEvent.WriteField "message" m.Message,
            FwdEvent.CloseWriter], err, by simp⟩⟩
    | none =>
      cases hnr : lib.NewRequest "POST" webhook with
      | some err =>
        exact ⟨by simp [posts, posts_append, hposts], fun _ =>
          ⟨FwdEvent.NewWriter :: evs ++
            [FwdEvent.WriteField "source" m.Source, FwdEvent.WriteField "message" m.Message,
              FwdEvent.CloseWriter, FwdEvent.NewRequest "POST" webhook], err, by simp⟩⟩
      | none => simp [hcl, hnr] at hf

/-- After a loop iteration with a failing checked step nothing more of the loop
runs: the attachments that follow do not change the calls made or the result. -/
theorem forwardAttachments_skips_rest (lib : Lib) (before : List Attachment)
    (a : Attachment) (rest : List Attachment) :
    ∀ i, attachmentFails lib (i + before.length) a = true →
      forwardAttachments lib i (before ++ a :: rest)
        = forwardAttachments lib i (before ++ [a]) := by
  induction before with
  | nil =>
    intro i h
    simp only [List.length_nil, Nat.add_zero] at h
    simp only [List.nil_append]
    unfold attachmentFails at h
    unfold forwardAttachments
    split
    · rfl
    · rfl
    · rename_i ext0 tl hl
      split
      · rfl
      · rename_i hcf
        split
        · rfl
        · rename_i reader hg
          split
          · rfl
          · rename_i hr
            simp [hl, hcf, hg, hr] at h
  | cons b bs ih =>
    intro i h
    have h1 : attachmentFails lib (i + 1 + bs.length) a = true := by
      rw [List.length_cons] at h
      rw [Nat.add_assoc, Nat.add_comm 1]
      exact h
    have hrec := ih (i + 1) h1
    simp only [List.cons_append]
    unfold forwardAttachments
    rw [hrec]

/-- After an attachment with a failing checked step the forwarder runs no further
step: the attachments that follow, the `source` and `message` fields, the closing
of the writer, the request and the send are all skipped, and the run is the one of
the message that ends with the failing attachment. -/
theorem Handler_skips_rest (lib : Lib) (webhook source message : String)
    (before : List Attachment) (a : Attachment) (rest : List Attachment)
    (hf : attachmentFails lib before.length a = true) :
    Handler lib webhook ⟨source, message, before ++ a :: rest⟩
        = Handler lib webhook ⟨source, message, before ++ [a]⟩ ∧
      (webhook ≠ "" →
        (Handler lib webhook ⟨source, message, before ++ a :: rest⟩).events
          = FwdEvent.NewWriter :: (forwardAttachments lib 0 (before ++ [a])).1) := by
  have hskip := forwardAttachments_skips_rest lib before a rest 0 (by simpa using hf)
  have hfail : attachmentsFail lib 0 (before ++ [a]) = true := by
    have hgen : ∀ (bs : List Attachment) (i : Nat),
        attachmentFails lib (i + bs.length) a = true →
          attachmentsFail lib i (bs ++ [a]) = true := by
      intro bs
      induction bs with
      | nil =>
        intro i h
        simp only [List.length_nil, Nat.add_zero] at h
        simp [attachmentsFail, h]
      | cons b bs ih =>
        intro i h
        have h1 : attachmentFails lib (i + 1 + bs.length) a = true := by
          rw [List.length_cons] at h
          rw [Nat.add_assoc, Nat.add_comm 1]
          exact h
        simp [attachmentsFail, ih (i + 1) h1]
    exact hgen before 0 (by simpa using hf)
  obtain ⟨out, hout⟩ := forwardAttachments_fail lib (before ++ [a]) 0 hfail
  constructor
  · unfold Handler
    simp only [hskip]
  · intro hw
    unfold Handler
    rw [if_neg hw]
    simp only [hskip]
    rcases hfa : forwardAttachments lib 0 (before ++ [a]) with ⟨evs, res⟩
    rw [hfa] at hout
    simp only at hout
    subst hout
    rfl

/-- C7 fails on the code where an attachment stream cannot be opened: `GetReader`
returns an error, line 54 discards it, and the forwarder neither logs nor returns.
It copies from the reader it was given, writes both fields, closes the writer,
builds the request and issues the POST, here with an empty file part. -/
theorem Handler_open_failure_still_posts :
    msgOpenFails.Attachments.map (fun a => a.GetReader.2)
        = [some "open attachment: no such file"] ∧
      Handler goLib "https://example.org/hook" msgOpenFails
        = ⟨[FwdEvent.NewWriter, FwdEvent.ExtensionsByType "image/png",
            FwdEvent.CreateFormFile "attachments" "attachments1..png",
            FwdEvent.GetReader 0, FwdEvent.Copy [],
            FwdEvent.WriteField "source" "+15550123",
            FwdEvent.WriteField "message" "see picture",
            FwdEvent.CloseWriter, FwdEvent.NewRequest "POST" "https://example.org/hook",
            FwdEvent.Do "POST" "https://example.org/hook"
              [Part.file "attachments" "attachments1..png" [],
                Part.field "source" "+15550123", Part.field "message" "see picture"],
            FwdEvent.BodyClose], .returned⟩ := by
  decide

/-- C8 fails on the code: for an attachment whose MIME type has no registered
extension the lookup returns an empty list and no error, and `ext[0]` panics; for an
attachment whose `GetReader` returns a nil reader, `io.Copy` panics. Neither panic
is recovered in the forwarder. -/
theorem Handler_panics :
    (Handler goLib "https://example.org/hook" msgUnknownType).outcome
        = .panicked "index out of range [0] with length 0" ∧
      (Handler goLib "https://example.org/hook" msgNilReader).outcome
        = .panicked "invalid memory address or nil pointer dereference" := by
  decide

/-! ## The lifecycle coordinator -/

theorem setupTask_watch (s : Sys) (err : Option String) :
    (setupTask s err).watch = s.watch ∧ (setupTask s err).main = s.main ∧
      (setupTask s err).trace.filter isShutdownEvent = s.trace.filter isShutdownEvent := by
  cases err <;> simp [setupTask, List.filter_append, isShutdownEvent]

theorem serverTask_watch (s : Sys) (err : Option String) :
    (serverTask s err).watch = s.watch ∧ (serverTask s err).main = s.main ∧
      (serverTask s err).trace.filter isShutdownEvent = s.trace.filter isShutdownEvent := by
  cases err <;> simp [serverTask, List.filter_append, isShutdownEvent]

theorem step_Inv (s s' : Sys) (act : Action) (h : step s act = some s') (hinv : Inv s) :
    Inv s' := by
  obtain ⟨hf, hm⟩ := hinv
  unfold step at h
  split at h
  · simp at h
  · cases act <;> simp only at h
    case setupReturns err =>
      split at h <;> simp at h
      subst h
      obtain ⟨h1, h2, h3⟩ := setupTask_watch s err
      exact ⟨by rw [h3, h1]; exact hf, by rw [h1, h2]; exact hm⟩
    case serveReturns err =>
      split at h <;> simp at h
      subst h
      obtain ⟨h1, h2, h3⟩ := serverTask_watch s err
      exact ⟨by rw [h3, h1]; exact hf, by rw [h1, h2]; exact hm⟩
    case readCode text =>
      split at h
      · split at h <;> simp at h <;> subst h
        · exact ⟨by simpa [List.filter_append, isShutdownEvent] using hf, by simp_all⟩
        · exact ⟨hf, hm⟩
      · simp at h
    all_goals (split at h <;> simp at h)
    all_goals subst h
    all_goals (constructor <;> simp_all [isShutdownEvent, shutdownProgress, List.filter_append])

theorem Inv_init (register : Bool) : Inv (init register) := by
  cases register <;> simp [Inv, init, shutdownProgress]

theorem run_Inv (acts : List Action) : ∀ s s', run s acts = some s' → Inv s → Inv s' := by
  induction acts with
  | nil =>
    intro s s' h hinv
    simp only [run, Option.some.injEq] at h
    exact h ▸ hinv
  | cons act acts ih =>
    intro s s' h hinv
    simp only [run] at h
    cases hs : step s act with
    | none => simp [hs] at h
    | some s1 =>
      rw [hs] at h
      exact ih s1 s' h (step_Inv s s1 act hs hinv)

/-- C9 fails on the code: the server goroutine treats `http.ErrServerClosed`, the
result of a clean shutdown, like any other error. It calls `log.Fatal`, does not
finish and does not signal the wait group; in the schedule
`interruptThenServerClosed` the process ends that way while the interrupt goroutine
is still inside `srv.Shutdown`, before `signalsms.Shutdown()`. -/
theorem serverTask_fatal_on_clean_shutdown :
    (∀ s : Sys, (serverTask s (some ErrServerClosed)).proc = Proc.fatal ∧
      (serverTask s (some ErrServerClosed)).serve = s.serve ∧
      (serverTask s (some ErrServerClosed)).wg = s.wg) ∧
    (run (init false) interruptThenServerClosed).map (fun s => (s.proc, s.watch, s.wg, s.trace))
      = some (Proc.fatal, WatchPc.draining, 2,
          [LEvent.SetupCalled, LEvent.SetupReturned none, LEvent.ListenAndServeCalled,
            LEvent.Interrupt, LEvent.InterruptObserved, LEvent.ServerShutdownCalled 5,
            LEvent.ListenAndServeReturned (some ErrServerClosed),
            LEvent.Fatal ErrServerClosed]) :=
  ⟨fun _ => ⟨rfl, rfl, rfl⟩, by decide⟩

/-- C10, as the coordinator implements it: in every execution `signalsms.Shutdown()`
is called at most once, and when it is called the shutdown events before it are
exactly, in this order, the interrupt being observed, `srv.Shutdown` being called
with the 5 second deadline and `srv.Shutdown` returning; none follows it. -/
theorem providerShutdown_order (register : Bool) (acts : List Action) (s : Sys)
    (h : run (init register) acts = some s) :
    s.trace.count LEvent.ProviderShutdown ≤ 1 ∧
      ∀ pre post, s.trace = pre ++ LEvent.ProviderShutdown :: post →
        pre.filter isShutdownEvent
            = [LEvent.InterruptObserved, LEvent.ServerShutdownCalled 5,
                LEvent.ServerShutdownReturned] ∧
          post.filter isShutdownEvent = [] := by
  obtain ⟨hf, _⟩ := run_Inv acts (init register) s h (Inv_init register)
  constructor
  · have hc : s.trace.count LEvent.ProviderShutdown
        = (s.trace.filter isShutdownEvent).count LEvent.ProviderShutdown :=
      (List.count_filter (by rfl)).symm
    rw [hc, hf]
    cases s.watch <;> decide
  · intro pre post htr
    rw [htr, List.filter_append] at hf
    simp only [List.filter_cons, isShutdownEvent, if_true] at hf
    generalize pre.filter isShutdownEvent = l at hf
    generalize post.filter isShutdownEvent = r at hf
    cases hw : s.watch <;> rw [hw] at hf <;> simp only [shutdownProgress] at hf <;>
      rcases l with _ | ⟨a, _ | ⟨b, _ | ⟨c, _ | ⟨d, l⟩⟩⟩⟩ <;> simp at hf
    simp [hf]

/-- Instance of C10 on a complete shutdown. -/
theorem providerShutdown_order_witness :
    run (init false) orderlyShutdown = some orderlyShutdownEnd ∧
    (orderlyShutdownEnd.trace.count LEvent.ProviderShutdown ≤ 1 ∧
      ∀ pre post, orderlyShutdownEnd.trace = pre ++ LEvent.ProviderShutdown :: post →
        pre.filter isShutdownEvent
            = [LEvent.InterruptObserved, LEvent.ServerShutdownCalled 5,
                LEvent.ServerShutdownReturned] ∧
          post.filter isShutdownEvent = []) :=
  ⟨by decide, providerShutdown_order false orderlyShutdown orderlyShutdownEnd (by decide)⟩

/-- C10 as stated fails: in the schedule `interruptDuringSetup` the coordinator
calls `signalsms.Shutdown()` while `signalsms.Setup()` has been called and has not
returned. -/
theorem providerShutdown_while_setup_runs :
    (run (init false) interruptDuringSetup).map
        (fun s => (s.setup, setupReturned s.trace, s.trace))
      = some (SetupPc.inSetup, false,
          [LEvent.SetupCalled, LEvent.ListenAndServeCalled, LEvent.Interrupt,
            LEvent.InterruptObserved, LEvent.ServerShutdownCalled 5,
            LEvent.ServerShutdownReturned, LEvent.ProviderShutdown]) := by
  decide

end SignalGateway
